import Mathlib

/-!
Shallow embedding of the Toronto Open Data CKAN MCP server
(`src/ckanTools.ts`): the relevance scorer, the update-frequency
classifier, the summary builders and the tool handlers, together with
proofs settling the specification's claims about them.

Modelling conventions:
* JavaScript strings are Lean `String`s; `toLowerCase` folds ASCII case.
* Timestamps (ISO date strings parsed by `new Date`) are integer epoch
  milliseconds; `daysSince` is exact rational division by 86 400 000.
* `undefined` / absent JSON fields guarded by `?.` or `||` in the source
  are `Option`; a JS falsy empty string behind `||` is modelled as `none`.
* A rejected promise / thrown error is `Except.error`; the catalog client
  is passed in as an oracle `String → Except String _` so that handler
  control flow around failures can be stated.
-/

namespace CkanTools

/-- JS `String.prototype.toLowerCase` (ASCII case folding). -/
def jsToLower (s : String) : String := ⟨s.data.map Char.toLower⟩

/-- Does `p` begin the list `s`? -/
def jsStartsWith : List Char → List Char → Bool
  | [], _ => true
  | _ :: _, [] => false
  | p :: ps, c :: cs => p == c && jsStartsWith ps cs

/-- Substring containment on character lists: `pat` occurs somewhere in `s`. -/
def jsIncludesAux (pat : List Char) : List Char → Bool
  | [] => jsStartsWith pat []
  | c :: cs => jsStartsWith pat (c :: cs) || jsIncludesAux pat cs

/-- JS `s.includes pat`: substring containment. -/
def jsIncludes (s pat : String) : Bool := jsIncludesAux pat.toList s.toList

/-- JS `a || b` on two optional values (`undefined`/empty short-circuits). -/
def jsOr (a b : Option Int) : Option Int :=
  match a with
  | some x => some x
  | none => b

/-- JS `s₁ || s₂` on an optional string against a default (empty string is falsy). -/
def jsOrString (a : Option String) (b : String) : String :=
  match a with
  | some s => if s = "" then b else s
  | none => b

/-- JS `[...new Set(l)]`: deduplicate preserving first-occurrence order. -/
def jsSetDedup {α : Type} [DecidableEq α] (l : List α) : List α :=
  l.foldl (fun acc x => if x ∈ acc then acc else acc ++ [x]) []

/-- JS `arr.slice(0, e)`: a negative end index counts from the end of the array. -/
def jsSliceEnd {α : Type} (l : List α) (e : Int) : List α :=
  let len : Int := l.length
  let stop : Int := if e < 0 then max (len + e) 0 else min e len
  l.take stop.toNat

/-- A dynamically-typed JS value arriving as a tool parameter, before schema
validation. -/
inductive JsValue where
  | str (s : String)
  | num (n : Int)
  | bool (b : Bool)
  | null
deriving Repr, DecidableEq

/-- Schema `z.string()`: accepts any string value (no minimum-length constraint in the
source schemas), rejects non-strings. -/
def zodString : JsValue → Except String String
  | .str s => .ok s
  | _ => .error "Expected string, received other type"

/-! ### Data model (`src/types.ts`, runtime guards from `ckanTools.ts`) -/

structure CkanTag where
  name : String
deriving Repr, DecidableEq

structure CkanOrganization where
  id : String
  name : String
  title : Option String
deriving Repr, DecidableEq

structure CkanResource where
  id : String
  name : Option String
  format : Option String
  size : Option Nat
  mimetype : Option String
  url : Option String
  created : Option Int
  last_modified : Option Int
  datastore_active : Bool
deriving Repr, DecidableEq

structure CkanPackage where
  id : String
  name : String
  title : Option String
  notes : Option String
  tags : Option (List CkanTag)
  organization : Option CkanOrganization
  resources : Option (List CkanResource)
  metadata_created : Option Int
  metadata_modified : Option Int
  refresh_rate : Option String
  maintainer : Option String
  maintainer_updated : Option Int
deriving Repr, DecidableEq

structure CkanDatastoreField where
  id : String
  type : String
deriving Repr, DecidableEq

/-- One row of a datastore resource: field name to (stringified) value. -/
abbrev JsRecord := List (String × String)

structure CkanDatastoreResult where
  total : Nat
  fields : List CkanDatastoreField
  records : List JsRecord
deriving Repr, DecidableEq

abbrev FacetData := List (String × List (String × Nat))

structure CkanSearchResult where
  count : Nat
  results : List CkanPackage
  facets : Option FacetData
deriving Repr, DecidableEq

/-! ### Configuration constants (`CONFIG`) -/

structure RelevanceWeights where
  TITLE : Nat
  DESCRIPTION : Nat
  TAGS : Nat
  ORGANIZATION : Nat
  RESOURCE : Nat
deriving Repr, DecidableEq

structure FrequencyThresholds where
  FREQUENT_DAYS : Nat
  MONTHLY_DAYS : Nat
  QUARTERLY_DAYS : Nat
deriving Repr, DecidableEq

def RELEVANCE_WEIGHTS : RelevanceWeights :=
  { TITLE := 10, DESCRIPTION := 5, TAGS := 3, ORGANIZATION := 2, RESOURCE := 1 }

def FREQUENCY_THRESHOLDS : FrequencyThresholds :=
  { FREQUENT_DAYS := 7, MONTHLY_DAYS := 30, QUARTERLY_DAYS := 90 }

/-! ### Relevance scorer (`RelevanceScorer`) -/

/-- Embeds `RelevanceScorer.scoreTitle`: `title?.toLowerCase().includes(query)`. -/
def scoreTitle (title : Option String) (query : String) : Nat :=
  match title with
  | some t => if jsIncludes (jsToLower t) query then RELEVANCE_WEIGHTS.TITLE else 0
  | none => 0

/-- Embeds `RelevanceScorer.scoreDescription`: `description?.toLowerCase().includes(query)`. -/
def scoreDescription (description : Option String) (query : String) : Nat :=
  match description with
  | some d => if jsIncludes (jsToLower d) query then RELEVANCE_WEIGHTS.DESCRIPTION else 0
  | none => 0

/-- Embeds `RelevanceScorer.scoreTags`: `tags?.some(tag => tag.name.toLowerCase().includes(query))`. -/
def scoreTags (tags : Option (List CkanTag)) (query : String) : Nat :=
  if (tags.getD []).any (fun tag => jsIncludes (jsToLower tag.name) query) then
    RELEVANCE_WEIGHTS.TAGS
  else 0

/-- Embeds `RelevanceScorer.scoreOrganization`: `organization?.title?.toLowerCase().includes(query)`. -/
def scoreOrganization (organization : Option CkanOrganization) (query : String) : Nat :=
  match organization with
  | some org =>
    match org.title with
    | some t => if jsIncludes (jsToLower t) query then RELEVANCE_WEIGHTS.ORGANIZATION else 0
    | none => 0
  | none => 0

/-- Embeds `RelevanceScorer.scoreResources`: any resource's name or format contains the query. -/
def scoreResources (resources : Option (List CkanResource)) (query : String) : Nat :=
  let hasMatch := (resources.getD []).any fun resource =>
    (resource.name.map (fun n => jsIncludes (jsToLower n) query)).getD false ||
    (resource.format.map (fun f => jsIncludes (jsToLower f) query)).getD false
  if hasMatch then RELEVANCE_WEIGHTS.RESOURCE else 0

/-- Embeds `RelevanceScorer.score` (also `analyzeDatasetRelevance`): lower the query once,
then sum the five independent criterion scores. -/
def score (dataset : CkanPackage) (query : String) : Nat :=
  let lowerQuery := jsToLower query
  scoreTitle dataset.title lowerQuery +
  scoreDescription dataset.notes lowerQuery +
  scoreTags dataset.tags lowerQuery +
  scoreOrganization dataset.organization lowerQuery +
  scoreResources dataset.resources lowerQuery

/-! ### Update-frequency classifier (`UpdateFrequencyAnalyzer`) -/

inductive FrequencyCategory where
  | daily | weekly | monthly | quarterly | annually | irregular
  | frequent | infrequent | unknown
deriving Repr, DecidableEq

/-- The nine category values `categorize` may return. -/
def allFrequencyCategories : List FrequencyCategory :=
  [.daily, .weekly, .monthly, .quarterly, .annually, .irregular,
   .frequent, .infrequent, .unknown]

/-- Embeds `UpdateFrequencyAnalyzer.PATTERNS`, in the object-literal insertion order
that `Object.entries` iterates. -/
def PATTERNS : List (FrequencyCategory × List String) :=
  [(.daily, ["daily", "real-time"]),
   (.weekly, ["weekly"]),
   (.monthly, ["monthly"]),
   (.quarterly, ["quarterly"]),
   (.annually, ["annual", "yearly"]),
   (.irregular, ["irregular", "as needed"])]

/-- The `for (const [category, patterns] of Object.entries(PATTERNS))` loop:
first category whose keyword list matches wins. -/
def findPattern (refreshRate : String) : List (FrequencyCategory × List String) →
    Option FrequencyCategory
  | [] => none
  | (category, patterns) :: rest =>
    if patterns.any (fun pattern => jsIncludes refreshRate pattern) then some category
    else findPattern refreshRate rest

/-- Embeds `UpdateFrequencyAnalyzer.daysSinceDate`: the exact rational
`(now - date) / (1000*3600*24)`, written with `Rat.divInt` so that the
kernel can evaluate it on concrete inputs. -/
def daysSinceDate (now date : Int) : ℚ :=
  Rat.divInt (now - date) (1000 * 3600 * 24)

/-- Embeds `UpdateFrequencyAnalyzer.inferFromMetadata`:
`lastUpdate = dataset.maintainer_updated || dataset.metadata_modified`,
then threshold the elapsed days. `now` is the wall-clock time. -/
def inferFromMetadata (now : Int) (dataset : CkanPackage) : FrequencyCategory :=
  match jsOr dataset.maintainer_updated dataset.metadata_modified with
  | none => .unknown
  | some lastUpdate =>
    let daysSince := daysSinceDate now lastUpdate
    if daysSince < (FREQUENCY_THRESHOLDS.FREQUENT_DAYS : ℚ) then .frequent
    else if daysSince < (FREQUENCY_THRESHOLDS.MONTHLY_DAYS : ℚ) then .monthly
    else if daysSince < (FREQUENCY_THRESHOLDS.QUARTERLY_DAYS : ℚ) then .quarterly
    else .infrequent

/-- Embeds `UpdateFrequencyAnalyzer.categorize` (also `getUpdateFrequencyCategory`):
declared `refresh_rate` keywords first, else recency inference. -/
def categorize (now : Int) (dataset : CkanPackage) : FrequencyCategory :=
  let refreshRate := jsToLower (dataset.refresh_rate.getD "")
  match findPattern refreshRate PATTERNS with
  | some category => category
  | none => inferFromMetadata now dataset

/-! ### Summary builders (`SummaryBuilder`) -/

/-- Embeds `SummaryBuilder.truncateDescription`: cap at 200 characters, append `...`
when truncated; a missing or empty description becomes the empty string. -/
def truncateDescription (notes : Option String) : String :=
  match notes with
  | none => ""
  | some notes =>
    if notes = "" then ""
    else if notes.length > 200 then String.mk (notes.data.take 200) ++ "..."
    else notes

/-- Embeds `SummaryBuilder.countDatastoreResources`. -/
def countDatastoreResources (resources : Option (List CkanResource)) : Nat :=
  ((resources.getD []).filter (·.datastore_active)).length

structure PackageSummary where
  id : String
  name : String
  title : Option String
  description : String
  organization : String
  tags : List String
  created : Option Int
  last_modified : Option Int
  resource_count : Nat
  datastore_resources : Nat
  url : String
deriving Repr, DecidableEq

/-- Embeds `SummaryBuilder.package` (also `createPackageSummary`). -/
def createPackageSummary (pkg : CkanPackage) : PackageSummary :=
  { id := pkg.id
    name := pkg.name
    title := pkg.title
    description := truncateDescription pkg.notes
    organization := jsOrString (pkg.organization.bind (·.title)) "Unknown"
    tags := ((pkg.tags.getD []).map (·.name)).take 5
    created := pkg.metadata_created
    last_modified := pkg.metadata_modified
    resource_count := (pkg.resources.getD []).length
    datastore_resources := countDatastoreResources pkg.resources
    url := "https://open.toronto.ca/dataset/" ++ pkg.name ++ "/" }

/-! ### Tool handlers

Each handler receives the catalog client operations it uses as oracle
functions (`Except.error` is a rejected fetch), mirroring that the remote
catalog is an external collaborator.  A handler's own returned promise is the
outer `Except`: `.error` means an exception reached the transport layer. -/

/-- Payload of `get_package`: either the summary projection or the raw package. -/
inductive GetPackageResult where
  | summarized (s : PackageSummary)
  | full (p : CkanPackage)
deriving Repr, DecidableEq

/-- A `createToolResponse` payload: either the tool's data or a structured
`{error: message}` object. -/
inductive ToolResponse (α : Type) where
  | success (data : α)
  | errorMsg (msg : String)
deriving Repr, DecidableEq

/-- The `try { body } catch (error) { return createToolResponse({error: ...}) }`
pattern shared by the five basic handlers: any error thrown by the body is
converted into a structured error-message response, so the handler's own
promise always resolves. -/
def runToolWithCatch {α : Type} (wrap : String → String) (body : Except String α) :
    Except String (ToolResponse α) :=
  match body with
  | .ok data => .ok (.success data)
  | .error e => .ok (.errorMsg (wrap e))

/-- The `get_package` handler: fetch, optionally summarize, and catch any
error into a structured `{error: ...}` response. -/
def getPackageHandler (fetchCkanPackage : String → Except String CkanPackage)
    (packageId : String) (summary : Bool) : Except String (ToolResponse GetPackageResult) :=
  runToolWithCatch (fun e => "Failed to fetch package: " ++ e) (do
    let pkg ← fetchCkanPackage packageId
    pure (if summary then .summarized (createPackageSummary pkg) else .full pkg))

structure FirstRecordsSummary where
  resource_id : String
  resource_name : Option String
  total_records : Nat
  returned_records : Nat
  fields : List CkanDatastoreField
  records : List JsRecord
deriving Repr, DecidableEq

/-- Payload of `get_first_datastore_resource_records`: the no-datastore
message or the records summary. -/
inductive FirstRecordsData where
  | message (s : String)
  | summary (s : FirstRecordsSummary)
deriving Repr, DecidableEq

/-- The `get_first_datastore_resource_records` handler: its try/catch also
swallows the `TypeError` raised when the package has no `resources` array. -/
def getFirstDatastoreResourceRecordsHandler
    (fetchCkanPackage : String → Except String CkanPackage)
    (fetchCkanResource : String → Nat → Except String CkanDatastoreResult)
    (packageId : String) (limit : Nat) :
    Except String (ToolResponse FirstRecordsData) :=
  runToolWithCatch (fun e => "Failed to fetch resource records: " ++ e) (do
    let pkg ← fetchCkanPackage packageId
    let rs ← match pkg.resources with
      | none => Except.error "TypeError: cannot read resources of undefined"
      | some rs => pure rs
    match rs.filter (·.datastore_active) with
    | [] => pure (.message "No active datastore resources found.")
    | r :: _ => do
      let result ← fetchCkanResource r.id limit
      pure (.summary
        { resource_id := r.id
          resource_name := r.name
          total_records := result.total
          returned_records := result.records.length
          fields := result.fields
          records := result.records }))

structure ResourceRecordsSummary where
  resource_id : String
  total_records : Nat
  returned_records : Nat
  limit : Nat
  offset : Nat
  fields : List CkanDatastoreField
  records : List JsRecord
deriving Repr, DecidableEq

/-- The `get_resource_records` handler (`limit || 10` makes a zero limit 10;
`offset || 0` is the identity on `Nat`). -/
def getResourceRecordsHandler
    (fetchCkanResource : String → Nat → Nat → Except String CkanDatastoreResult)
    (resourceId : String) (limit offset : Nat) :
    Except String (ToolResponse ResourceRecordsSummary) :=
  let limitOr10 := if limit = 0 then 10 else limit
  runToolWithCatch (fun e => "Failed to fetch resource records: " ++ e) (do
    let result ← fetchCkanResource resourceId limitOr10 offset
    pure
      { resource_id := resourceId
        total_records := result.total
        returned_records := result.records.length
        limit := limitOr10
        offset := offset
        fields := result.fields
        records := result.records })

structure ListDatasetsSummary where
  total_datasets : Nat
  returned_count : Nat
  offset : Nat
  limit : Nat
  dataset_ids : List String
deriving Repr, DecidableEq

/-- The `list_datasets` handler: client-side pagination by
`fullList.slice(startIndex, startIndex + (limit || 50))`. -/
def listDatasetsHandler (fetchCkanPackageList : Unit → Except String (List String))
    (limit offset : Nat) : Except String (ToolResponse ListDatasetsSummary) :=
  runToolWithCatch (fun e => "Failed to list datasets: " ++ e) (do
    let fullList ← fetchCkanPackageList ()
    let startIndex := offset
    let endIndex := startIndex + (if limit = 0 then 50 else limit)
    let limitedList := (fullList.take endIndex).drop startIndex
    pure
      { total_datasets := fullList.length
        returned_count := limitedList.length
        offset := startIndex
        limit := if limit = 0 then 50 else limit
        dataset_ids := limitedList })

structure SearchDatasetsSummary where
  query : String
  total_found : Nat
  returned_count : Nat
  datasets : List PackageSummary
deriving Repr, DecidableEq

/-- The `search_datasets` handler: search, summarize, cap at `limit || 20`. -/
def searchDatasetsHandler (search : String → Except String CkanSearchResult)
    (query : String) (limit : Nat) :
    Except String (ToolResponse SearchDatasetsSummary) :=
  runToolWithCatch (fun e => "Failed to search datasets: " ++ e) (do
    let result ← search query
    let limitedResults :=
      (jsSliceEnd result.results ((if limit = 0 then 20 else limit : Nat) : Int)).map
        createPackageSummary
    pure
      { query := query
        total_found := result.count
        returned_count := limitedResults.length
        datasets := limitedResults })

/-- One scored entry produced by `find_relevant_datasets`:
the package spread together with the added analysis fields. -/
structure ScoredDataset where
  dataset : CkanPackage
  relevance_score : Nat
  update_frequency : FrequencyCategory
  resource_count : Nat
  has_datastore : Bool
deriving Repr, DecidableEq

/-- The map step of `find_relevant_datasets` over one search result. -/
def scoreDataset (now : Int) (query : String) (dataset : CkanPackage) : ScoredDataset :=
  { dataset := dataset
    relevance_score := score dataset query
    update_frequency := categorize now dataset
    resource_count := (dataset.resources.getD []).length
    has_datastore := (dataset.resources.getD []).any (·.datastore_active) }

/-- The comparator `(a, b) => b.relevance_score - a.relevance_score` sorts by
descending score; `a` may stay before `b` exactly when `a`'s score is not
smaller. -/
def scoreDescending (a b : ScoredDataset) : Prop :=
  b.relevance_score ≤ a.relevance_score

instance : DecidableRel scoreDescending := fun a b =>
  inferInstanceAs (Decidable (b.relevance_score ≤ a.relevance_score))

/-- Embeds `scoredDatasets.sort((a, b) => b.relevance_score - a.relevance_score)`:
JS `Array.prototype.sort` is stable (ES2019), and a stable sort by a total
preorder is extensionally unique, so it is embedded as stable insertion sort. -/
def sortByScoreDescending (l : List ScoredDataset) : List ScoredDataset :=
  List.insertionSort scoreDescending l

/-- The `.sort(...).slice(0, maxResults)` pipeline of `find_relevant_datasets`. -/
def findRelevantSorted (now : Int) (query : String) (maxResults : Int)
    (searchResult : CkanSearchResult) : List ScoredDataset :=
  jsSliceEnd (sortByScoreDescending (searchResult.results.map (scoreDataset now query)))
    maxResults

/-- An entry with the `relevance_score` field destructured away
(`includeRelevanceScore: false`). -/
structure UnscoredDataset where
  dataset : CkanPackage
  update_frequency : FrequencyCategory
  resource_count : Nat
  has_datastore : Bool
deriving Repr, DecidableEq

def stripScore (d : ScoredDataset) : UnscoredDataset :=
  { dataset := d.dataset, update_frequency := d.update_frequency,
    resource_count := d.resource_count, has_datastore := d.has_datastore }

inductive DatasetsPayload where
  | scored (l : List ScoredDataset)
  | unscored (l : List UnscoredDataset)
deriving Repr, DecidableEq

structure FindRelevantAnalysis where
  query : String
  total_found : Nat
  returned_count : Nat
  datasets : DatasetsPayload
  facets : FacetData
deriving Repr, DecidableEq

/-- Body of the `find_relevant_datasets` handler after the search resolved. -/
def findRelevantCore (now : Int) (query : String) (maxResults : Int)
    (includeRelevanceScore : Bool) (searchResult : CkanSearchResult) :
    FindRelevantAnalysis :=
  let sortedDatasets := findRelevantSorted now query maxResults searchResult
  { query := query
    total_found := searchResult.count
    returned_count := sortedDatasets.length
    datasets :=
      if includeRelevanceScore then .scored sortedDatasets
      else .unscored (sortedDatasets.map stripScore)
    facets := searchResult.facets.getD [] }

/-- The `find_relevant_datasets` handler.  Note: no try/catch — a failed
search rejects the handler's promise. -/
def findRelevantDatasets (search : String → Except String CkanSearchResult)
    (now : Int) (query : String) (maxResults : Int) (includeRelevanceScore : Bool) :
    Except String FindRelevantAnalysis := do
  let searchResult ← search query
  pure (findRelevantCore now query maxResults includeRelevanceScore searchResult)

/-! ### `analyze_dataset_updates` -/

structure UpdateAnalysisEntry where
  id : String
  name : String
  title : Option String
  update_frequency : FrequencyCategory
  last_modified : Option Int
  refresh_rate : Option String
  maintainer : Option String
  organization : Option String
  resource_count : Nat
  datastore_resources : Nat
deriving Repr, DecidableEq

/-- The per-dataset map of `analyze_dataset_updates`. -/
def buildUpdateEntry (now : Int) (dataset : CkanPackage) : UpdateAnalysisEntry :=
  { id := dataset.id
    name := dataset.name
    title := dataset.title
    update_frequency := categorize now dataset
    last_modified := dataset.metadata_modified
    refresh_rate := dataset.refresh_rate
    maintainer := dataset.maintainer
    organization := dataset.organization.bind (·.title)
    resource_count := (dataset.resources.getD []).length
    datastore_resources := ((dataset.resources.getD []).filter (·.datastore_active)).length }

structure FrequencyGroup where
  frequency : FrequencyCategory
  count : Nat
  datasets : List (String × Option String)
deriving Repr, DecidableEq

/-- The `reduce` into a plain object keyed by frequency, then
`Object.entries(...)` in key-insertion (first-occurrence) order. -/
def frequencySummary (entries : List UpdateAnalysisEntry) : List FrequencyGroup :=
  (jsSetDedup (entries.map (·.update_frequency))).map fun freq =>
    let ds := entries.filter (fun d => d.update_frequency = freq)
    { frequency := freq, count := ds.length, datasets := ds.map (fun d => (d.id, d.title)) }

structure UpdatesAnalysis where
  total_datasets : Nat
  datasets : List UpdateAnalysisEntry
  frequency_summary : Option (List FrequencyGroup)
deriving Repr, DecidableEq

/-- The response of `analyze_dataset_updates`: either the parameter-missing
message or the analysis object. -/
inductive UpdatesResponse where
  | missingParams
  | analysis (a : UpdatesAnalysis)
deriving Repr, DecidableEq

/-- Shared tail of `analyze_dataset_updates` once the datasets are in hand. -/
def buildUpdatesAnalysis (now : Int) (groupByFrequency : Bool)
    (datasets : List CkanPackage) : UpdatesAnalysis :=
  let updateAnalysis := datasets.map (buildUpdateEntry now)
  { total_datasets := datasets.length
    datasets := updateAnalysis
    frequency_summary :=
      if groupByFrequency then some (frequencySummary updateAnalysis) else none }

/-- The query branch of `analyze_dataset_updates` (`else if (query)`, where an
empty string is falsy). -/
def analyzeUpdatesQueryPath (search : String → Except String CkanSearchResult)
    (now : Int) (query : Option String) (groupByFrequency : Bool) :
    Except String UpdatesResponse :=
  match query with
  | some q =>
    if q = "" then .ok .missingParams
    else do
      let searchResult ← search q
      pure (.analysis (buildUpdatesAnalysis now groupByFrequency searchResult.results))
  | none => .ok .missingParams

/-- The `analyze_dataset_updates` handler: a non-empty `packageIds` wins over
`query`; neither yields the parameter-missing message.  No try/catch — a
failed fetch or search rejects the handler's promise. -/
def analyzeDatasetUpdates (fetchCkanPackage : String → Except String CkanPackage)
    (search : String → Except String CkanSearchResult) (now : Int)
    (query : Option String) (packageIds : Option (List String))
    (groupByFrequency : Bool) : Except String UpdatesResponse :=
  match packageIds with
  | some ids =>
    if ids.length > 0 then do
      let datasets ← ids.mapM fetchCkanPackage
      pure (.analysis (buildUpdatesAnalysis now groupByFrequency datasets))
    else analyzeUpdatesQueryPath search now query groupByFrequency
  | none => analyzeUpdatesQueryPath search now query groupByFrequency

/-! ### `analyze_dataset_structure` -/

/-- The mutable `resourceInfo` object built per resource: pass-through
metadata plus the probe-filled fields (initialized to `null`). -/
structure ResourceInfo where
  id : String
  name : Option String
  format : Option String
  size : Option Nat
  mimetype : Option String
  url : Option String
  created : Option Int
  last_modified : Option Int
  datastore_active : Bool
  fields : Option (List CkanDatastoreField)
  record_count : Option Nat
  sample_data : Option (List JsRecord)
deriving Repr, DecidableEq

/-- The pass-through part of `resourceInfo` before any probe. -/
def initResourceInfo (resource : CkanResource) : ResourceInfo :=
  { id := resource.id
    name := resource.name
    format := resource.format
    size := resource.size
    mimetype := resource.mimetype
    url := resource.url
    created := resource.created
    last_modified := resource.last_modified
    datastore_active := resource.datastore_active
    fields := none
    record_count := none
    sample_data := none }

/-- The per-resource closure of `analyze_dataset_structure`.  A
datastore-active resource is probed (`fetchCkanDatastoreInfo`, the zero-row
probe) and optionally sampled (`fetchCkanResource`); the surrounding
try/catch turns any failure into `datastore_active = false`, keeping
whatever fields were assigned before the failure.  An inactive resource is
returned untouched. -/
def analyzeResource (fetchCkanDatastoreInfo : String → Except String CkanDatastoreResult)
    (fetchCkanResource : String → Nat → Except String CkanDatastoreResult)
    (includeDataPreview : Bool) (previewLimit : Nat) (resource : CkanResource) :
    ResourceInfo :=
  let resourceInfo := initResourceInfo resource
  if resource.datastore_active then
    match fetchCkanDatastoreInfo resource.id with
    | .error _ => { resourceInfo with datastore_active := false }
    | .ok datastoreInfo =>
      let resourceInfo :=
        { resourceInfo with
          fields := some datastoreInfo.fields
          record_count := some datastoreInfo.total }
      if includeDataPreview && previewLimit > 0 then
        match fetchCkanResource resource.id previewLimit with
        | .error _ => { resourceInfo with datastore_active := false }
        | .ok sampleResult => { resourceInfo with sample_data := some sampleResult.records }
      else resourceInfo
  else resourceInfo

structure ResourceSummaryAgg where
  total_resources : Nat
  datastore_resources : Nat
  formats : List (Option String)
  total_records : Nat
deriving Repr, DecidableEq

structure StructureAnalysis where
  package_id : String
  name : String
  title : Option String
  description : Option String
  tags : List String
  organization : Option String
  created : Option Int
  last_modified : Option Int
  update_frequency : FrequencyCategory
  resource_summary : ResourceSummaryAgg
  resources : List ResourceInfo
deriving Repr, DecidableEq

/-- Body of `analyze_dataset_structure` once the package is fetched.
`pkg.resources` is accessed without a guard (a missing array is a
`TypeError`, modelled as `.error`); per-resource probe failures are caught
inside `analyzeResource`. -/
def structureCore (fetchCkanDatastoreInfo : String → Except String CkanDatastoreResult)
    (fetchCkanResource : String → Nat → Except String CkanDatastoreResult)
    (now : Int) (includeDataPreview : Bool) (previewLimit : Nat)
    (pkg : CkanPackage) : Except String StructureAnalysis :=
  match pkg.resources with
  | none => .error "TypeError: cannot read resources of undefined"
  | some resourceList =>
    let resourceAnalysis := resourceList.map
      (analyzeResource fetchCkanDatastoreInfo fetchCkanResource includeDataPreview
        previewLimit)
    pure
      { package_id := pkg.id
        name := pkg.name
        title := pkg.title
        description := pkg.notes
        tags := (pkg.tags.getD []).map (·.name)
        organization := pkg.organization.bind (·.title)
        created := pkg.metadata_created
        last_modified := pkg.metadata_modified
        update_frequency := categorize now pkg
        resource_summary :=
          { total_resources := resourceList.length
            datastore_resources := (resourceAnalysis.filter (·.datastore_active)).length
            formats := jsSetDedup (resourceList.map (·.format))
            total_records := resourceAnalysis.foldl
              (fun sum r => sum + r.record_count.getD 0) 0 }
        resources := resourceAnalysis }

/-- The `analyze_dataset_structure` handler: fetch the package (no try/catch,
a failed fetch rejects), then build the analysis. -/
def analyzeDatasetStructure (fetchCkanPackage : String → Except String CkanPackage)
    (fetchCkanDatastoreInfo : String → Except String CkanDatastoreResult)
    (fetchCkanResource : String → Nat → Except String CkanDatastoreResult)
    (now : Int) (packageId : String) (includeDataPreview : Bool)
    (previewLimit : Nat) : Except String StructureAnalysis := do
  let pkg ← fetchCkanPackage packageId
  structureCore fetchCkanDatastoreInfo fetchCkanResource now includeDataPreview
    previewLimit pkg

/-! ## Shared sample data for witnesses and counterexamples -/

def sampleTag : CkanTag := { name := "parking" }

def sampleOrg : CkanOrganization :=
  { id := "org1", name := "transportation-services", title := some "Transportation Services" }

def sampleRes : CkanResource :=
  { id := "res1", name := some "parking tickets csv", format := some "CSV", size := none,
    mimetype := none, url := none, created := none, last_modified := none,
    datastore_active := true }

def samplePkg : CkanPackage :=
  { id := "pkg1", name := "parking-tickets", title := some "Parking Tickets",
    notes := some "Dataset of parking tickets issued.",
    tags := some [sampleTag], organization := some sampleOrg, resources := some [sampleRes],
    metadata_created := none, metadata_modified := none, refresh_rate := none,
    maintainer := none, maintainer_updated := none }

def samplePkg2 : CkanPackage :=
  { id := "pkg2", name := "traffic-signals", title := some "Traffic Signals",
    notes := none, tags := none, organization := none, resources := none,
    metadata_created := none, metadata_modified := none, refresh_rate := none,
    maintainer := none, maintainer_updated := none }

def sampleSearchResult2 : CkanSearchResult :=
  { count := 2, results := [samplePkg, samplePkg2], facets := none }

/-! ## Claim theorems -/

/-- Spec-vocabulary containment test: case-insensitive substring containment
of the query in a field, each side lowered independently. -/
def containsCI (field query : String) : Bool :=
  jsIncludes (jsToLower field) (jsToLower query)

lemma scoreTitle_eq_spec (title : Option String) (q : String) :
    scoreTitle title (jsToLower q) =
      if (title.map (fun t => containsCI t q)).getD false then 10 else 0 := by
  cases title <;> simp [scoreTitle, containsCI, RELEVANCE_WEIGHTS]

lemma scoreDescription_eq_spec (notes : Option String) (q : String) :
    scoreDescription notes (jsToLower q) =
      if (notes.map (fun d => containsCI d q)).getD false then 5 else 0 := by
  cases notes <;> simp [scoreDescription, containsCI, RELEVANCE_WEIGHTS]

lemma scoreTags_eq_spec (tags : Option (List CkanTag)) (q : String) :
    scoreTags tags (jsToLower q) =
      if (tags.getD []).any (fun tag => containsCI tag.name q) then 3 else 0 := by
  simp [scoreTags, containsCI, RELEVANCE_WEIGHTS]

lemma scoreOrganization_eq_spec (org : Option CkanOrganization) (q : String) :
    scoreOrganization org (jsToLower q) =
      if ((org.bind (·.title)).map (fun t => containsCI t q)).getD false then 2 else 0 := by
  cases org with
  | none => simp [scoreOrganization]
  | some o => cases h : o.title <;> simp [scoreOrganization, containsCI, RELEVANCE_WEIGHTS, h]

lemma scoreResources_eq_spec (resources : Option (List CkanResource)) (q : String) :
    scoreResources resources (jsToLower q) =
      if (resources.getD []).any (fun r =>
          (r.name.map (fun n => containsCI n q)).getD false ||
          (r.format.map (fun f => containsCI f q)).getD false) then 1 else 0 := by
  simp [scoreResources, containsCI, RELEVANCE_WEIGHTS]

/-- C2: for every package and query, `score` is the sum of exactly the five
independent additive contributions, each gated by case-insensitive substring
containment of the query: +10 title, +5 description, +3 any tag name,
+2 organization title, +1 any resource name or format. -/
theorem score_is_weighted_sum_of_containment (dataset : CkanPackage) (query : String) :
    score dataset query =
      (if (dataset.title.map (fun t => containsCI t query)).getD false then 10 else 0) +
      (if (dataset.notes.map (fun d => containsCI d query)).getD false then 5 else 0) +
      (if (dataset.tags.getD []).any (fun tag => containsCI tag.name query) then 3 else 0) +
      (if ((dataset.organization.bind (·.title)).map
            (fun t => containsCI t query)).getD false then 2 else 0) +
      (if (dataset.resources.getD []).any (fun r =>
            (r.name.map (fun n => containsCI n query)).getD false ||
            (r.format.map (fun f => containsCI f query)).getD false) then 1 else 0) := by
  rw [score]
  rw [scoreTitle_eq_spec, scoreDescription_eq_spec, scoreTags_eq_spec,
    scoreOrganization_eq_spec, scoreResources_eq_spec]

lemma scoreTitle_le (t : Option String) (q : String) : scoreTitle t q ≤ 10 := by
  cases t with
  | none => simp [scoreTitle]
  | some t =>
    simp only [scoreTitle, RELEVANCE_WEIGHTS]
    split <;> simp

lemma scoreDescription_le (d : Option String) (q : String) : scoreDescription d q ≤ 5 := by
  cases d with
  | none => simp [scoreDescription]
  | some d =>
    simp only [scoreDescription, RELEVANCE_WEIGHTS]
    split <;> simp

lemma scoreTags_le (t : Option (List CkanTag)) (q : String) : scoreTags t q ≤ 3 := by
  simp only [scoreTags, RELEVANCE_WEIGHTS]
  split <;> simp

lemma scoreOrganization_le (o : Option CkanOrganization) (q : String) :
    scoreOrganization o q ≤ 2 := by
  cases o with
  | none => simp [scoreOrganization]
  | some o =>
    obtain ⟨oid, oname, otitle⟩ := o
    cases otitle with
    | none => simp [scoreOrganization]
    | some t =>
      simp only [scoreOrganization, RELEVANCE_WEIGHTS]
      split <;> simp

lemma scoreResources_le (r : Option (List CkanResource)) (q : String) :
    scoreResources r q ≤ 1 := by
  simp only [scoreResources, RELEVANCE_WEIGHTS]
  split <;> simp

/-- C9: the score is always between 0 and 21; each criterion contributes its
weight at most once (tags at most +3, resources at most +1, however many
tags or resources match). -/
theorem score_bounds (dataset : CkanPackage) (query : String) :
    0 ≤ score dataset query ∧ score dataset query ≤ 21 ∧
    (∀ tags, scoreTags tags (jsToLower query) ≤ 3) ∧
    (∀ resources, scoreResources resources (jsToLower query) ≤ 1) := by
  refine ⟨Nat.zero_le _, ?_, fun tags => scoreTags_le tags _,
    fun resources => scoreResources_le resources _⟩
  rw [score]
  have h1 := scoreTitle_le dataset.title (jsToLower query)
  have h2 := scoreDescription_le dataset.notes (jsToLower query)
  have h3 := scoreTags_le dataset.tags (jsToLower query)
  have h4 := scoreOrganization_le dataset.organization (jsToLower query)
  have h5 := scoreResources_le dataset.resources (jsToLower query)
  omega

/-! ### Classifier lemmas (C5, C6, C4) -/

/-- A refresh-rate string matches the keyword set of a pattern entry. -/
def matchesEntry (refreshRate : String) (entry : FrequencyCategory × List String) : Bool :=
  entry.2.any (fun pattern => jsIncludes refreshRate pattern)

lemma findPattern_eq_of_first (rr : String) :
    ∀ (l : List (FrequencyCategory × List String)) (i : Fin l.length),
      matchesEntry rr (l.get i) = true →
      (∀ j : Fin l.length, (j : Nat) < (i : Nat) → matchesEntry rr (l.get j) = false) →
      findPattern rr l = some (l.get i).1 := by
  intro l
  induction l with
  | nil => intro i; exact absurd i.isLt (by simp)
  | cons hd tl ih =>
    intro i hi hbefore
    match i with
    | ⟨0, _⟩ =>
      simp only [List.get] at hi ⊢
      rw [findPattern, if_pos (by simpa [matchesEntry] using hi)]
    | ⟨n + 1, hn⟩ =>
      have hhd : matchesEntry rr hd = false := hbefore ⟨0, by simp⟩ (by simp)
      rw [findPattern, if_neg (by simp only [matchesEntry] at hhd; simp [hhd])]
      exact ih ⟨n, by simpa using hn⟩ hi
        (fun j hj => hbefore ⟨(j : Nat) + 1, by simp [Nat.succ_lt_succ j.isLt]⟩
          (by simpa using hj))

lemma findPattern_eq_none (rr : String) :
    ∀ (l : List (FrequencyCategory × List String)),
      (∀ entry ∈ l, matchesEntry rr entry = false) → findPattern rr l = none := by
  intro l
  induction l with
  | nil => intro _; rfl
  | cons hd tl ih =>
    intro h
    rw [findPattern, if_neg (by simpa [matchesEntry] using h hd (by simp))]
    exact ih (fun e he => h e (by simp [he]))

/-- C5: when the lower-cased refresh-rate string matches the keyword set of
category `i` of the priority list and of no earlier category, `classify`
returns category `i` — first match in the fixed order daily, weekly, monthly,
quarterly, annually, irregular wins; in particular `refresh_rate = "Updated
Daily"` classifies as daily whatever the timestamps and the current time. -/
theorem categorize_first_matching_pattern_wins :
    (∀ (now : Int) (dataset : CkanPackage) (i : Fin PATTERNS.length),
      matchesEntry (jsToLower (dataset.refresh_rate.getD "")) (PATTERNS.get i) = true →
      (∀ j : Fin PATTERNS.length, (j : Nat) < (i : Nat) →
        matchesEntry (jsToLower (dataset.refresh_rate.getD "")) (PATTERNS.get j) = false) →
      categorize now dataset = (PATTERNS.get i).1) ∧
    (∀ (now : Int) (dataset : CkanPackage),
      dataset.refresh_rate = some "Updated Daily" →
      categorize now dataset = .daily) := by
  constructor
  · intro now dataset i hi hbefore
    rw [categorize, findPattern_eq_of_first _ _ i hi hbefore]
  · intro now dataset h
    rw [categorize, h]
    rw [show findPattern (jsToLower ((some "Updated Daily").getD "")) PATTERNS =
      some FrequencyCategory.daily by decide]

/-- Concrete instantiations of `categorize_first_matching_pattern_wins`:
a refresh rate containing both "weekly" and "monthly" keywords classifies
as weekly (the earlier category), and "Updated Daily" as daily. -/
theorem categorize_first_matching_pattern_wins_witness :
    categorize 0 { samplePkg with refresh_rate := some "Weekly (sometimes monthly)" } =
      .weekly ∧
    categorize 300 { samplePkg with metadata_modified := some 0,
                                    refresh_rate := some "Updated Daily" } = .daily := by
  constructor
  · exact categorize_first_matching_pattern_wins.1 0
      { samplePkg with refresh_rate := some "Weekly (sometimes monthly)" }
      ⟨1, by decide⟩ (by decide) (by decide)
  · exact categorize_first_matching_pattern_wins.2 300
      { samplePkg with metadata_modified := some 0,
                       refresh_rate := some "Updated Daily" } rfl

/-- C6: with no matching refresh-rate keyword, the fallback classifies by
elapsed days — `frequent` under 7, `monthly` under 30, `quarterly` under 90,
`infrequent` otherwise — `unknown` when no timestamp is available, and
`classify` is total over the nine enumerated categories. -/
theorem categorize_fallback_thresholds_and_total :
    (∀ (now : Int) (dataset : CkanPackage),
      (∀ entry ∈ PATTERNS,
        matchesEntry (jsToLower (dataset.refresh_rate.getD "")) entry = false) →
      (jsOr dataset.maintainer_updated dataset.metadata_modified = none →
        categorize now dataset = .unknown) ∧
      (∀ t, jsOr dataset.maintainer_updated dataset.metadata_modified = some t →
        (daysSinceDate now t < 7 → categorize now dataset = .frequent) ∧
        (¬ daysSinceDate now t < 7 → daysSinceDate now t < 30 →
          categorize now dataset = .monthly) ∧
        (¬ daysSinceDate now t < 30 → daysSinceDate now t < 90 →
          categorize now dataset = .quarterly) ∧
        (¬ daysSinceDate now t < 90 → categorize now dataset = .infrequent))) ∧
    (∀ (now : Int) (dataset : CkanPackage),
      categorize now dataset ∈ allFrequencyCategories) := by
  constructor
  · intro now dataset hkw
    have hcat : categorize now dataset = inferFromMetadata now dataset := by
      rw [categorize, findPattern_eq_none _ _ hkw]
    constructor
    · intro hnone
      rw [hcat, inferFromMetadata, hnone]
    · intro t ht
      refine ⟨?_, ?_, ?_, ?_⟩
      · intro h7
        rw [hcat, inferFromMetadata, ht]
        simp only [FREQUENCY_THRESHOLDS]
        rw [if_pos (by exact_mod_cast h7)]
      · intro h7 h30
        rw [hcat, inferFromMetadata, ht]
        simp only [FREQUENCY_THRESHOLDS]
        rw [if_neg (by exact_mod_cast h7), if_pos (by exact_mod_cast h30)]
      · intro h30 h90
        rw [hcat, inferFromMetadata, ht]
        simp only [FREQUENCY_THRESHOLDS]
        rw [if_neg (fun h => h30 (lt_trans (by exact_mod_cast h) (by norm_num))),
          if_neg (by exact_mod_cast h30), if_pos (by exact_mod_cast h90)]
      · intro h90
        rw [hcat, inferFromMetadata, ht]
        simp only [FREQUENCY_THRESHOLDS]
        rw [if_neg (fun h => h90 (lt_trans (by exact_mod_cast h) (by norm_num))),
          if_neg (fun h => h90 (lt_trans (by exact_mod_cast h) (by norm_num))),
          if_neg (by exact_mod_cast h90)]
  · intro now dataset
    cases h : categorize now dataset <;> simp [allFrequencyCategories]

/-- Concrete instantiations of `categorize_fallback_thresholds_and_total`:
with no refresh-rate keyword, a 5-day-old timestamp gives `frequent` and a
40-day-old one gives `quarterly`; no timestamp at all gives `unknown`. -/
theorem categorize_fallback_thresholds_and_total_witness :
    categorize (5 * 86400000) { samplePkg with metadata_modified := some 0 } = .frequent ∧
    categorize (40 * 86400000) { samplePkg with metadata_modified := some 0 } = .quarterly ∧
    categorize 0 samplePkg = .unknown := by
  refine ⟨?_, ?_, ?_⟩
  · exact (((categorize_fallback_thresholds_and_total.1 (5 * 86400000)
      { samplePkg with metadata_modified := some 0 } (by decide)).2 0 rfl).1 (by decide))
  · exact (((categorize_fallback_thresholds_and_total.1 (40 * 86400000)
      { samplePkg with metadata_modified := some 0 } (by decide)).2 0 rfl).2.2.1
      (by decide) (by decide))
  · exact ((categorize_fallback_thresholds_and_total.1 0 samplePkg (by decide)).1 rfl)

/-! ### C4: the recency-inference fallback and the two timestamps -/

/-- The `<7 / <30 / <90 / else` day-threshold mapping shared by the code's
fallback and the spec's description of it. -/
def thresholdFromDays (daysSince : ℚ) : FrequencyCategory :=
  if daysSince < 7 then .frequent
  else if daysSince < 30 then .monthly
  else if daysSince < 90 then .quarterly
  else .infrequent

/-- Modelled from the spec: "take the most recent of a maintainer-updated
timestamp or the metadata-modified timestamp; compute days elapsed since
that timestamp relative to the current time" — the maximum of the two
timestamps when both are present. -/
def inferFromMetadataSpec (now : Int) (dataset : CkanPackage) : FrequencyCategory :=
  match dataset.maintainer_updated, dataset.metadata_modified with
  | none, none => .unknown
  | some t, none => thresholdFromDays (daysSinceDate now t)
  | none, some t => thresholdFromDays (daysSinceDate now t)
  | some t1, some t2 => thresholdFromDays (daysSinceDate now (max t1 t2))

/-- C4 counterexample: a package with no refresh-rate keyword, a 200-day-old
`maintainer_updated` and a 5-day-old `metadata_modified`.  The code prefers
`maintainer_updated` and classifies `infrequent`; the claimed
most-recent-timestamp rule would classify `frequent`. -/
theorem categorize_not_max_of_timestamps_cex :
    categorize (200 * 86400000) { samplePkg with maintainer_updated := some 0,
                                                 metadata_modified := some (195 * 86400000) } =
      .infrequent ∧
    inferFromMetadataSpec (200 * 86400000)
        { samplePkg with maintainer_updated := some 0,
                         metadata_modified := some (195 * 86400000) } = .frequent ∧
    categorize (200 * 86400000) { samplePkg with maintainer_updated := some 0,
                                                 metadata_modified := some (195 * 86400000) } ≠
      inferFromMetadataSpec (200 * 86400000)
        { samplePkg with maintainer_updated := some 0,
                         metadata_modified := some (195 * 86400000) } := by
  refine ⟨by decide, by decide, by decide⟩

/-- C4 amended: with no matching refresh-rate keyword and a present
`maintainer_updated`, the fallback classifies from `maintainer_updated`
alone — `metadata_modified` is ignored (first-present preference via `||`,
not the maximum of the two timestamps). -/
theorem categorize_fallback_prefers_maintainer_updated
    (now : Int) (dataset : CkanPackage) (t : Int)
    (hkw : ∀ entry ∈ PATTERNS,
      matchesEntry (jsToLower (dataset.refresh_rate.getD "")) entry = false)
    (hm : dataset.maintainer_updated = some t) :
    categorize now dataset = thresholdFromDays (daysSinceDate now t) ∧
    ∀ m : Option Int,
      categorize now { dataset with metadata_modified := m } = categorize now dataset := by
  have hbody : ∀ m : Option Int,
      categorize now { dataset with metadata_modified := m } =
        thresholdFromDays (daysSinceDate now t) := by
    intro m
    rw [categorize, findPattern_eq_none _ _ (by simpa using hkw)]
    simp only [inferFromMetadata, jsOr, hm, thresholdFromDays, FREQUENCY_THRESHOLDS]
    norm_num
  have hself : categorize now dataset = thresholdFromDays (daysSinceDate now t) := by
    have := hbody dataset.metadata_modified
    simpa using this
  exact ⟨hself, fun m => (hbody m).trans hself.symm⟩

/-- Concrete instantiation of `categorize_fallback_prefers_maintainer_updated`:
the 200-day-old `maintainer_updated` drives the result, and swapping
`metadata_modified` between a 5-day-old value and `none` never changes it. -/
theorem categorize_fallback_prefers_maintainer_updated_witness :
    categorize (200 * 86400000) { samplePkg with maintainer_updated := some 0 } =
      thresholdFromDays (daysSinceDate (200 * 86400000) 0) ∧
    categorize (200 * 86400000)
        { { samplePkg with maintainer_updated := some 0 } with
            metadata_modified := some (195 * 86400000) } =
      categorize (200 * 86400000) { samplePkg with maintainer_updated := some 0 } := by
  have h := categorize_fallback_prefers_maintainer_updated (200 * 86400000)
    { samplePkg with maintainer_updated := some 0 } 0 (by decide) rfl
  exact ⟨h.1, h.2 (some (195 * 86400000))⟩

/-! ### C3: the empty query -/

def sampleSearchResult : CkanSearchResult :=
  { count := 1, results := [samplePkg], facets := none }

/-- C3 (code bug): `z.string()` accepts the empty string, so
`find_relevant_datasets` with `query = ""` proceeds to the catalog search
and evaluates `score` on the empty query — which matches every containment
criterion, scoring 21 for a fully-populated package — instead of rejecting
it as a validation error before scoring. -/
theorem empty_query_accepted_and_scored :
    zodString (JsValue.str "") = .ok "" ∧
    score samplePkg "" = 21 ∧
    findRelevantDatasets (fun _ => .ok sampleSearchResult) 0 "" 10 true =
      .ok (findRelevantCore 0 "" 10 true sampleSearchResult) ∧
    (findRelevantSorted 0 "" 10 sampleSearchResult).map (·.relevance_score) = [21] := by
  refine ⟨rfl, by decide, rfl, by decide⟩

/-! ### C7: result cap, descending order, stable ties -/

instance : IsTotal ScoredDataset scoreDescending :=
  ⟨fun a b => (Nat.le_total b.relevance_score a.relevance_score).imp id id⟩

instance : IsTrans ScoredDataset scoreDescending :=
  ⟨fun _ _ _ hab hbc => Nat.le_trans hbc hab⟩

lemma filter_orderedInsert_of_score (s : Nat) (a : ScoredDataset)
    (h : a.relevance_score = s) :
    ∀ l : List ScoredDataset,
      (List.orderedInsert scoreDescending a l).filter (fun d => d.relevance_score == s) =
        a :: l.filter (fun d => d.relevance_score == s)
  | [] => by simp [h]
  | b :: bs => by
    by_cases hr : scoreDescending a b
    · rw [List.orderedInsert, if_pos hr]
      simp [List.filter_cons, h]
    · have hb : (b.relevance_score == s) = false := by
        simp only [scoreDescending, not_le] at hr
        simp only [beq_eq_false_iff_ne, ne_eq]
        omega
      rw [List.orderedInsert, if_neg hr]
      simp [List.filter_cons, hb, filter_orderedInsert_of_score s a h bs]

lemma filter_orderedInsert_of_ne (s : Nat) (a : ScoredDataset)
    (h : ¬ a.relevance_score = s) :
    ∀ l : List ScoredDataset,
      (List.orderedInsert scoreDescending a l).filter (fun d => d.relevance_score == s) =
        l.filter (fun d => d.relevance_score == s)
  | [] => by simp [h]
  | b :: bs => by
    by_cases hr : scoreDescending a b
    · rw [List.orderedInsert, if_pos hr]
      simp [List.filter_cons, h]
    · rw [List.orderedInsert, if_neg hr]
      simp only [List.filter_cons, filter_orderedInsert_of_ne s a h bs]

/-- Stability of the descending score sort: entries of any fixed score keep
their original relative order. -/
lemma filter_sortByScoreDescending (s : Nat) :
    ∀ l : List ScoredDataset,
      (sortByScoreDescending l).filter (fun d => d.relevance_score == s) =
        l.filter (fun d => d.relevance_score == s)
  | [] => rfl
  | a :: l => by
    have hrec := filter_sortByScoreDescending s l
    rw [sortByScoreDescending] at hrec ⊢
    rw [List.insertionSort]
    by_cases h : a.relevance_score = s
    · rw [filter_orderedInsert_of_score s a h, hrec]
      simp [List.filter_cons, h]
    · rw [filter_orderedInsert_of_ne s a h, hrec]
      simp [List.filter_cons, h]

lemma isPrefix_filter {α : Type} (p : α → Bool) {l₁ l₂ : List α} (h : l₁ <+: l₂) :
    l₁.filter p <+: l₂.filter p := by
  obtain ⟨t, rfl⟩ := h
  rw [List.filter_append]
  exact ⟨_, rfl⟩

lemma jsSliceEnd_isPrefix {α : Type} (l : List α) (e : Int) : jsSliceEnd l e <+: l := by
  rw [jsSliceEnd]
  exact List.take_prefix _ _

lemma jsSliceEnd_length_le {α : Type} (l : List α) (e : Int) (he : 0 ≤ e) :
    ((jsSliceEnd l e).length : Int) ≤ e := by
  rw [jsSliceEnd]
  simp only [List.length_take]
  rw [if_neg (by omega)]
  have hmin : (min e (l.length : Int)).toNat ≤ e.toNat := Int.toNat_le_toNat (min_le_left _ _)
  have : (min e (l.length : Int)).toNat ≤ min ((min e (l.length : Int)).toNat) l.length :=
    le_min (le_refl _) (by
      have := min_le_right e (l.length : Int)
      omega)
  omega

/-- C7 (amended to non-negative `maxResults`): `find_relevant_datasets`
returns at most `maxResults` entries, the returned entries are sorted
non-increasing by relevance score, equal-score entries retain their original
catalog order (the returned run of any fixed score is a prefix of that
score's run in the scored search results), and the response's
`returned_count` and `datasets` payload expose exactly that list. -/
theorem findRelevant_capped_sorted_stable (now : Int) (query : String)
    (maxResults : Int) (includeRelevanceScore : Bool) (sr : CkanSearchResult)
    (hmax : 0 ≤ maxResults) :
    ((findRelevantSorted now query maxResults sr).length : Int) ≤ maxResults ∧
    List.Sorted scoreDescending (findRelevantSorted now query maxResults sr) ∧
    (∀ s : Nat,
      (findRelevantSorted now query maxResults sr).filter
          (fun d => d.relevance_score == s) <+:
        (sr.results.map (scoreDataset now query)).filter
          (fun d => d.relevance_score == s)) ∧
    (findRelevantCore now query maxResults includeRelevanceScore sr).returned_count =
      (findRelevantSorted now query maxResults sr).length ∧
    (findRelevantCore now query maxResults includeRelevanceScore sr).datasets =
      (if includeRelevanceScore then
        .scored (findRelevantSorted now query maxResults sr)
       else .unscored ((findRelevantSorted now query maxResults sr).map stripScore)) := by
  refine ⟨jsSliceEnd_length_le _ _ hmax, ?_, ?_, rfl, rfl⟩
  · exact List.Pairwise.sublist (jsSliceEnd_isPrefix _ _).sublist
      (List.sorted_insertionSort scoreDescending _)
  · intro s
    have h1 : (findRelevantSorted now query maxResults sr).filter
        (fun d => d.relevance_score == s) <+:
        (sortByScoreDescending (sr.results.map (scoreDataset now query))).filter
          (fun d => d.relevance_score == s) :=
      isPrefix_filter _ (jsSliceEnd_isPrefix _ _)
    rw [filter_sortByScoreDescending] at h1
    exact h1

/-- Concrete instantiation of `findRelevant_capped_sorted_stable` at
`maxResults = 1` over a two-package search result. -/
theorem findRelevant_capped_sorted_stable_witness :
    ((findRelevantSorted 0 "parking" 1 sampleSearchResult2).length : Int) ≤ 1 ∧
    List.Sorted scoreDescending (findRelevantSorted 0 "parking" 1 sampleSearchResult2) := by
  have h := findRelevant_capped_sorted_stable 0 "parking" 1 true sampleSearchResult2
    (by decide)
  exact ⟨h.1, h.2.1⟩

/-- C7 counterexample to "every maxResults value": `z.number()` admits
negative values, and JS `slice(0, -1)` then drops one element from the end
instead of capping at `maxResults`: two scored results with
`maxResults = -1` return one entry, and `1 ≤ -1` is false. -/
theorem findRelevant_negative_maxResults_cex :
    ((findRelevantSorted 0 "parking" (-1) sampleSearchResult2).length : Int) = 1 ∧
    ¬ ((1 : Int) ≤ -1) := by
  refine ⟨by decide, by decide⟩

/-! ### C8: datastore probing and partial degradation -/

def sampleResInactive : CkanResource := { sampleRes with datastore_active := false }

def sampleDatastoreResult : CkanDatastoreResult :=
  { total := 42, fields := [{ id := "ticket_id", type := "int" }], records := [] }

/-- C8: (1) a resource whose `datastore_active` flag is false is returned as
the untouched pass-through projection, identically for every probe oracle —
it is never probed; (2) when the zero-row probe of an active resource fails,
the output degrades `datastore_active` to false with fields, record count
and sample data left empty; (3) the handler still succeeds for the package,
its `resources` being exactly the per-resource analyses. -/
theorem structure_probe_skip_and_degrade :
    (∀ (probe probe' : String → Except String CkanDatastoreResult)
       (fr fr' : String → Nat → Except String CkanDatastoreResult)
       (inc : Bool) (lim : Nat) (r : CkanResource),
      r.datastore_active = false →
      analyzeResource probe fr inc lim r = initResourceInfo r ∧
      (initResourceInfo r).fields = none ∧
      (initResourceInfo r).record_count = none ∧
      (initResourceInfo r).sample_data = none ∧
      analyzeResource probe fr inc lim r = analyzeResource probe' fr' inc lim r) ∧
    (∀ (probe : String → Except String CkanDatastoreResult)
       (fr : String → Nat → Except String CkanDatastoreResult)
       (inc : Bool) (lim : Nat) (r : CkanResource) (e : String),
      r.datastore_active = true → probe r.id = .error e →
      analyzeResource probe fr inc lim r =
        { initResourceInfo r with datastore_active := false }) ∧
    (∀ (fetchP : String → Except String CkanPackage)
       (probe : String → Except String CkanDatastoreResult)
       (fr : String → Nat → Except String CkanDatastoreResult)
       (now : Int) (pid : String) (inc : Bool) (lim : Nat)
       (pkg : CkanPackage) (rl : List CkanResource),
      fetchP pid = .ok pkg → pkg.resources = some rl →
      ∃ a, analyzeDatasetStructure fetchP probe fr now pid inc lim = .ok a ∧
        a.resources = rl.map (analyzeResource probe fr inc lim)) := by
  refine ⟨?_, ?_, ?_⟩
  · intro probe probe' fr fr' inc lim r h
    rw [analyzeResource, if_neg (by simp [h]), analyzeResource, if_neg (by simp [h])]
    exact ⟨rfl, rfl, rfl, rfl, rfl⟩
  · intro probe fr inc lim r e hact hprobe
    rw [analyzeResource, if_pos (by simp [hact]), hprobe]
  · intro fetchP probe fr now pid inc lim pkg rl hfetch hres
    have h1 : analyzeDatasetStructure fetchP probe fr now pid inc lim =
        structureCore probe fr now inc lim pkg := by
      rw [analyzeDatasetStructure, hfetch]
      rfl
    have h2 : ∃ a, structureCore probe fr now inc lim pkg = .ok a ∧
        a.resources = rl.map (analyzeResource probe fr inc lim) := by
      rw [structureCore, hres]
      exact ⟨_, rfl, rfl⟩
    obtain ⟨a, ha, har⟩ := h2
    exact ⟨a, h1.trans ha, har⟩

/-- Concrete instantiations of `structure_probe_skip_and_degrade`: an
inactive resource is identical under a failing and a succeeding probe; a
failing probe on the active sample resource degrades it; the handler still
returns a full analysis for the package. -/
theorem structure_probe_skip_and_degrade_witness :
    analyzeResource (fun _ => .error "probe down") (fun _ _ => .error "probe down")
        true 5 sampleResInactive =
      analyzeResource (fun _ => .ok sampleDatastoreResult)
        (fun _ _ => .ok sampleDatastoreResult) true 5 sampleResInactive ∧
    analyzeResource (fun _ => .error "probe down") (fun _ _ => .error "probe down")
        false 5 sampleRes =
      { initResourceInfo sampleRes with datastore_active := false } ∧
    ∃ a, analyzeDatasetStructure (fun _ => .ok samplePkg)
        (fun _ => .error "probe down") (fun _ _ => .error "probe down") 0 "pkg1" false 5 =
        .ok a ∧
      a.resources = [sampleRes].map (analyzeResource (fun _ => .error "probe down")
        (fun _ _ => .error "probe down") false 5) := by
  refine ⟨?_, ?_, ?_⟩
  · exact (structure_probe_skip_and_degrade.1 (fun _ => .error "probe down")
      (fun _ => .ok sampleDatastoreResult) (fun _ _ => .error "probe down")
      (fun _ _ => .ok sampleDatastoreResult) true 5 sampleResInactive rfl).2.2.2.2
  · exact structure_probe_skip_and_degrade.2.1 (fun _ => .error "probe down")
      (fun _ _ => .error "probe down") false 5 sampleRes "probe down" rfl rfl
  · exact structure_probe_skip_and_degrade.2.2 (fun _ => .ok samplePkg)
      (fun _ => .error "probe down") (fun _ _ => .error "probe down") 0 "pkg1" false 5
      samplePkg [sampleRes] rfl rfl

/-! ### C10: packageIds wins over query in `analyze_dataset_updates` -/

/-- C10: with a non-empty `packageIds` the handler's result is independent of
the query and of the search oracle (no catalog search happens); the datasets
analyzed are exactly `packageIds` fetched one by one in order; an empty
`packageIds` list behaves as if the parameter were absent, falling through
to the query path. -/
theorem updates_packageIds_wins_over_query :
    (∀ (f : String → Except String CkanPackage)
       (s s' : String → Except String CkanSearchResult) (now : Int)
       (q q' : Option String) (ids : List String) (g : Bool),
      ids ≠ [] →
      analyzeDatasetUpdates f s now q (some ids) g =
        analyzeDatasetUpdates f s' now q' (some ids) g) ∧
    (∀ (f : String → Except String CkanPackage)
       (s : String → Except String CkanSearchResult) (now : Int)
       (q : Option String) (ids : List String) (g : Bool)
       (datasets : List CkanPackage),
      ids ≠ [] → ids.mapM f = .ok datasets →
      analyzeDatasetUpdates f s now q (some ids) g =
        .ok (.analysis (buildUpdatesAnalysis now g datasets))) ∧
    (∀ (f : String → Except String CkanPackage)
       (s : String → Except String CkanSearchResult) (now : Int)
       (q : Option String) (g : Bool),
      analyzeDatasetUpdates f s now q (some []) g =
        analyzeDatasetUpdates f s now q none g) := by
  refine ⟨?_, ?_, ?_⟩
  · intro f s s' now q q' ids g h
    have hpos : 0 < ids.length := List.length_pos.mpr h
    simp [analyzeDatasetUpdates, hpos]
  · intro f s now q ids g datasets h hmap
    have hpos : 0 < ids.length := List.length_pos.mpr h
    have hmap' : List.mapM.loop f ids [] = Except.ok datasets := hmap
    simp [analyzeDatasetUpdates, hpos, hmap']
  · intro f s now q g
    simp [analyzeDatasetUpdates]

/-- Concrete instantiation of `updates_packageIds_wins_over_query`: with
`packageIds = ["pkg1"]` the result ignores both the query value and a search
oracle that would fail, and equals the analysis of the fetched package. -/
theorem updates_packageIds_wins_over_query_witness :
    analyzeDatasetUpdates (fun _ => .ok samplePkg) (fun _ => .error "search down") 0
        (some "ignored query") (some ["pkg1"]) true =
      analyzeDatasetUpdates (fun _ => .ok samplePkg) (fun _ => .ok sampleSearchResult) 0
        none (some ["pkg1"]) true ∧
    analyzeDatasetUpdates (fun _ => .ok samplePkg) (fun _ => .error "search down") 0
        (some "ignored query") (some ["pkg1"]) true =
      .ok (.analysis (buildUpdatesAnalysis 0 true [samplePkg])) ∧
    analyzeDatasetUpdates (fun _ => .ok samplePkg) (fun _ => .error "search down") 0
        (some "parks") (some []) true =
      analyzeDatasetUpdates (fun _ => .ok samplePkg) (fun _ => .error "search down") 0
        (some "parks") none true := by
  refine ⟨?_, ?_, ?_⟩
  · exact updates_packageIds_wins_over_query.1 (fun _ => .ok samplePkg)
      (fun _ => .error "search down") (fun _ => .ok sampleSearchResult) 0
      (some "ignored query") none ["pkg1"] true (by decide)
  · exact updates_packageIds_wins_over_query.2.1 (fun _ => .ok samplePkg)
      (fun _ => .error "search down") 0 (some "ignored query") ["pkg1"] true
      [samplePkg] (by decide) rfl
  · exact updates_packageIds_wins_over_query.2.2 (fun _ => .ok samplePkg)
      (fun _ => .error "search down") 0 (some "parks") true

/-! ### C1: which handlers catch errors -/

/-- C1 counterexample: a failed catalog search inside `find_relevant_datasets`
propagates out of the handler (its promise rejects), instead of being caught
and converted to a structured error response. -/
theorem find_relevant_uncaught_error_cex :
    findRelevantDatasets (fun _ => .error "CKAN API HTTP error: 500") 0 "parking" 10 true =
      .error "CKAN API HTTP error: 500" := rfl

/-- C1 amended: each of the five basic handlers (`get_package`,
`get_first_datastore_resource_records`, `get_resource_records`,
`list_datasets`, `search_datasets`) catches every error and returns a
structured response (it never rejects), `get_package` in particular turning
a fetch error into a `{error: ...}` payload; the advanced handlers
`find_relevant_datasets`, `analyze_dataset_updates` and
`analyze_dataset_structure` have no try/catch and propagate a failed
catalog call to the transport layer. -/
theorem basic_handler_catches_advanced_handlers_propagate :
    (∀ (fetch : String → Except String CkanPackage) (pid : String) (s : Bool),
      ∃ r, getPackageHandler fetch pid s = .ok r) ∧
    (∀ (fetch : String → Except String CkanPackage)
       (fr : String → Nat → Except String CkanDatastoreResult) (pid : String) (lim : Nat),
      ∃ r, getFirstDatastoreResourceRecordsHandler fetch fr pid lim = .ok r) ∧
    (∀ (fr : String → Nat → Nat → Except String CkanDatastoreResult)
       (rid : String) (lim off : Nat),
      ∃ r, getResourceRecordsHandler fr rid lim off = .ok r) ∧
    (∀ (fl : Unit → Except String (List String)) (lim off : Nat),
      ∃ r, listDatasetsHandler fl lim off = .ok r) ∧
    (∀ (s : String → Except String CkanSearchResult) (q : String) (lim : Nat),
      ∃ r, searchDatasetsHandler s q lim = .ok r) ∧
    (∀ (fetch : String → Except String CkanPackage) (pid : String) (s : Bool) (e : String),
      fetch pid = .error e →
      getPackageHandler fetch pid s = .ok (.errorMsg ("Failed to fetch package: " ++ e))) ∧
    (∀ (now : Int) (q : String) (mr : Int) (inc : Bool) (e : String),
      findRelevantDatasets (fun _ => .error e) now q mr inc = .error e) ∧
    (∀ (s : String → Except String CkanSearchResult) (now : Int) (q : Option String)
       (g : Bool) (e : String) (ids : List String),
      ids ≠ [] →
      analyzeDatasetUpdates (fun _ => .error e) s now q (some ids) g = .error e) ∧
    (∀ (probe : String → Except String CkanDatastoreResult)
       (fr : String → Nat → Except String CkanDatastoreResult)
       (now : Int) (pid : String) (inc : Bool) (lim : Nat) (e : String),
      analyzeDatasetStructure (fun _ => .error e) probe fr now pid inc lim = .error e) := by
  have hcatch : ∀ {α : Type} (wrap : String → String) (body : Except String α),
      ∃ r, runToolWithCatch wrap body = .ok r := by
    intro α wrap body
    cases body with
    | ok data => exact ⟨_, rfl⟩
    | error e => exact ⟨_, rfl⟩
  refine ⟨?_, ?_, ?_, ?_, ?_, ?_, ?_, ?_, ?_⟩
  · intro fetch pid s
    exact hcatch _ _
  · intro fetch fr pid lim
    exact hcatch _ _
  · intro fr rid lim off
    exact hcatch _ _
  · intro fl lim off
    exact hcatch _ _
  · intro s q lim
    exact hcatch _ _
  · intro fetch pid s e h
    rw [getPackageHandler, h]
    rfl
  · intro now q mr inc e
    rfl
  · intro s now q g e ids h
    obtain ⟨hd, tl, rfl⟩ := List.exists_cons_of_ne_nil h
    simp only [analyzeDatasetUpdates]
    rw [if_pos (by simp : (hd :: tl).length > 0)]
    rfl
  · intro probe fr now pid inc lim e
    rfl

/-- Concrete instantiations of
`basic_handler_catches_advanced_handlers_propagate`: `get_package` turns a
failed fetch into a structured error payload, while `analyze_dataset_updates`
rejects outright on the same failure. -/
theorem basic_handler_catches_advanced_handlers_propagate_witness :
    (∃ r, getPackageHandler (fun _ => .error "boom") "pkg1" true = .ok r) ∧
    getPackageHandler (fun _ => .error "boom") "pkg1" true =
      .ok (.errorMsg "Failed to fetch package: boom") ∧
    analyzeDatasetUpdates (fun _ => .error "boom") (fun _ => .ok sampleSearchResult) 0
      none (some ["pkg1"]) true = .error "boom" := by
  refine ⟨?_, ?_, ?_⟩
  · exact basic_handler_catches_advanced_handlers_propagate.1
      (fun _ => .error "boom") "pkg1" true
  · exact basic_handler_catches_advanced_handlers_propagate.2.2.2.2.2.1
      (fun _ => .error "boom") "pkg1" true "boom" rfl
  · exact basic_handler_catches_advanced_handlers_propagate.2.2.2.2.2.2.2.1
      (fun _ => .ok sampleSearchResult) 0 none true "boom" ["pkg1"] (by decide)

end CkanTools
